import Mathlib

/-!
# Graceful restart of the HTTP server in `gin.go`

A shallow embedding of `main` and of the signal loop it runs.  Everything the
program asks of the operating system or of the Go standard library (the
command line, what is open at descriptor 3, whether an address can be bound,
the signals taken from the channel, whether duplicating a descriptor or
starting a process succeeds, how long each blocking call takes) is read from a
`World`.  A run of `main` yields the list of effects it performed and the way
it ended.
-/

namespace GinGraceful

/-! ## Signals and durations -/

/-- A `syscall.Signal` is its number. -/
abbrev Signal := Nat

/-- The number of `syscall.SIGHUP`. -/
def SIGHUP : Signal := 1

/-- The number of `syscall.SIGTERM`. -/
def SIGTERM : Signal := 15

/-- One `time.Second`, in nanoseconds as `time.Duration` counts them. -/
def second : Nat := 1000000000

/-- The `ReadTimeout` of the server built at line 49: `6 * time.Second`. -/
def readTimeout : Nat := 6 * second

/-- The timeout given to `context.WithTimeout` at line 73: `20 * time.Second`. -/
def shutdownTimeout : Nat := 20 * second

/-- The text of `Signal.String` for the two signals the program asks for. -/
def sigName (sig : Signal) : String :=
  if sig = SIGHUP then "hangup"
  else if sig = SIGTERM then "terminated"
  else "signal"

/-! ## Sockets, listeners, files, commands -/

/-- The transport of a kernel socket. -/
inductive SockKind where
  | tcp
  | unix
  | udp
  deriving DecidableEq, Repr

/-- A kernel socket: an identity, a transport and the local address it is
bound to.  Two descriptors refer to the same socket when the `id` is the same. -/
structure Socket where
  id : Nat
  kind : SockKind
  laddr : String
  deriving DecidableEq, Repr

/-- The dynamic type of a non-nil `net.Listener` value. -/
inductive Listener where
  | tcp (s : Socket)
  | unix (s : Socket)
  deriving DecidableEq, Repr

/-- The socket a listener accepts on. -/
def Listener.socket : Listener → Socket
  | Listener.tcp s => s
  | Listener.unix s => s

/-- An `*os.File` obtained by duplicating a listener's descriptor: it refers to
the listener's socket. -/
structure OsFile where
  socket : Socket
  deriving DecidableEq, Repr

/-- The fields of `exec.Cmd` the program sets: `exec.Command(name, arg...)`
stores `name` and the argument vector `name :: arg`, line 90 stores
`ExtraFiles`. -/
structure Cmd where
  name : String
  args : List String
  extraFiles : List OsFile
  deriving DecidableEq, Repr

/-- The errors the modelled library calls return. -/
inductive GoError where
  | unexpectedAddressType
  | addressInUse
  | invalidDescriptor
  | einval
  deriving DecidableEq, Repr

/-- The descriptor table `os/exec` gives a child: entry `i` of `ExtraFiles`
becomes descriptor `3 + i`; descriptors 0 to 2 are the standard streams, which
are no listening sockets here. -/
def Cmd.childFd (c : Cmd) (n : Nat) : Option Socket :=
  if n < 3 then none else (c.extraFiles.get? (n - 3)).map OsFile.socket

/-! ## The environment -/

/-- Everything a run of the program reads from outside.  The goroutine of
`server.Serve` is taken to have registered the listener by the time a signal
is handled, and the requests it serves appear only as the time they still
need when `Shutdown` is called. -/
structure World where
  /-- The value of `os.Args`. -/
  osArgs : List String
  /-- The socket open at descriptor 3 when the process starts, if there is one. -/
  fd3 : Option Socket
  /-- Whether the address asked of `net.Listen` can be bound. -/
  addrFree : Bool
  /-- The identity a newly bound socket gets. -/
  freshId : Nat
  /-- Whether `tcp.File()` at line 45 can duplicate the descriptor. -/
  bootDupOk : Bool
  /-- The values successively received from `ch` at line 71. -/
  signals : List Signal
  /-- The wall clock when the signal loop is entered. -/
  bootTime : Nat
  /-- How long the receive of the `i`-th iteration blocks. -/
  recvWait : Nat → Nat
  /-- Whether `tl.File()` of the `i`-th iteration can duplicate the descriptor
  of a listener that is still open. -/
  dupOk : Nat → Bool
  /-- How long `tl.File()` of the `i`-th iteration takes. -/
  fileTook : Nat → Nat
  /-- The result of `cmd.Start()` in the `i`-th iteration: the child's pid, or
  `none` when it returns an error. -/
  startPid : Nat → Option Nat
  /-- How long `cmd.Start()` of the `i`-th iteration takes. -/
  startTook : Nat → Nat
  /-- How long the requests in flight need to finish, counted from the call of
  `Shutdown`. -/
  drainNeeds : Nat

/-! ## Effects and outcomes -/

/-- What the program does to the outside, in the order it does it. -/
inductive Effect where
  /-- A line written by `fmt`, `log` or `println`. -/
  | out (text : String)
  /-- `os.NewFile(fd, "")`. -/
  | newFile (fd : Nat)
  /-- `net.FileListener(f)`, with whether it returned a listener. -/
  | fileListener (ok : Bool)
  /-- `net.Listen(network, address)`, with whether it returned a listener. -/
  | listen (network address : String) (ok : Bool)
  /-- `File()` called on the listener, with whether it returned a file. -/
  | listenerFile (ok : Bool)
  /-- `go server.Serve(listener)` with the server's `ReadTimeout`. -/
  | goServe (l : Option Listener) (readTimeout : Nat)
  /-- `signal.Notify(ch, sigs...)`. -/
  | notify (sigs : List Signal)
  /-- `context.WithTimeout(context.Background(), timeout)` called at `now`. -/
  | withTimeout (now timeout : Nat)
  /-- `signal.Stop(ch)`. -/
  | signalStop
  /-- `cmd.Start()`, with the child's pid when it succeeded. -/
  | start (c : Cmd) (pid : Option Nat)
  /-- `server.Shutdown(ctx)` called at `calledAt` with a context that expires
  at `deadline`, and whether it returned the context's error. -/
  | shutdown (calledAt deadline : Nat) (timedOut : Bool)
  deriving DecidableEq, Repr

/-- How a run ends. -/
inductive Outcome where
  /-- `main` returned: the process exits. -/
  | returned
  /-- A nil pointer was dereferenced: the process crashes. -/
  | panicked
  /-- `flag.Parse` ended the process with this status. -/
  | exited (code : Nat)
  /-- The main goroutine is blocked in the receive at line 71: the process
  lives on. -/
  | waiting
  deriving DecidableEq, Repr

/-- Whether the process is gone. -/
def Outcome.processGone : Outcome → Bool
  | Outcome.waiting => false
  | _ => true

/-- A run: the effects performed and the way it ended. -/
structure Run where
  trace : List Effect
  outcome : Outcome
  deriving DecidableEq, Repr

/-! ## `flag.Parse` for the one flag `g` -/

/-- The part of an argument before and after the first `=`. -/
def splitEq : List Char → List Char × Option (List Char)
  | [] => ([], none)
  | c :: cs =>
    if c = '=' then ([], some cs)
    else
      let r := splitEq cs
      (c :: r.1, r.2)

/-- The values `strconv.ParseBool` accepts. -/
def parseBool (v : List Char) : Option Bool :=
  if v = ['1'] ∨ v = ['t'] ∨ v = ['T'] ∨ v = ['t', 'r', 'u', 'e']
      ∨ v = ['T', 'R', 'U', 'E'] ∨ v = ['T', 'r', 'u', 'e'] then some true
  else if v = ['0'] ∨ v = ['f'] ∨ v = ['F'] ∨ v = ['f', 'a', 'l', 's', 'e']
      ∨ v = ['F', 'A', 'L', 'S', 'E'] ∨ v = ['F', 'a', 'l', 's', 'e'] then some false
  else none

/-- The flag named by `name`, with an optional value: only `g` is defined, it
is boolean; `h` and `help` end the process with status 0, any other name or a
value that is no boolean with status 2. -/
def setFlag (name : List Char) (value : Option (List Char)) : Except Nat Bool :=
  if name = ['g'] then
    match value with
    | none => Except.ok true
    | some v =>
      match parseBool v with
      | some b => Except.ok b
      | none => Except.error 2
  else if name = ['h'] ∨ name = ['h', 'e', 'l', 'p'] then Except.error 0
  else Except.error 2

/-- The loop of `flag.Parse` over the arguments after the program name,
`graceful` being the value of the flag so far (its default is `false`): an
argument that is shorter than two characters or does not start with `-` ends
the flags, and so does `--`; a name that is empty or starts with `-` or `=` is
bad syntax (status 2). -/
def parseFlags (graceful : Bool) : List String → Except Nat Bool
  | [] => Except.ok graceful
  | a :: rest =>
    match a.data with
    | '-' :: '-' :: [] => Except.ok graceful
    | '-' :: '-' :: c :: cs =>
      if c = '-' ∨ c = '=' then Except.error 2
      else
        match setFlag (splitEq (c :: cs)).1 (splitEq (c :: cs)).2 with
        | Except.ok b => parseFlags b rest
        | Except.error e => Except.error e
    | '-' :: c :: cs =>
      if c = '=' then Except.error 2
      else
        match setFlag (splitEq (c :: cs)).1 (splitEq (c :: cs)).2 with
        | Except.ok b => parseFlags b rest
        | Except.error e => Except.error e
    | _ => Except.ok graceful

/-- The value of `*graceful` after `flag.Parse()` at line 36, or the status
`flag.Parse` exits with. -/
def flagParse (w : World) : Except Nat Bool :=
  parseFlags false w.osArgs.tail

/-! ## Socket acquisition (lines 38 to 47) -/

/-- What `net.Listen` does: the network has to be `tcp`, `tcp4`, `tcp6`, `unix`
or `unixpacket`; for any other network the address resolves to a type `Listen`
does not accept, and it returns an error without binding anything.  For an
accepted network it binds when the address is free. -/
def netListen (w : World) (network address : String) : Except GoError Listener :=
  if network = "tcp" ∨ network = "tcp4" ∨ network = "tcp6" then
    if w.addrFree then Except.ok (Listener.tcp ⟨w.freshId, SockKind.tcp, address⟩)
    else Except.error GoError.addressInUse
  else if network = "unix" ∨ network = "unixpacket" then
    if w.addrFree then Except.ok (Listener.unix ⟨w.freshId, SockKind.unix, address⟩)
    else Except.error GoError.addressInUse
  else Except.error GoError.unexpectedAddressType

/-- What `net.FileListener` does with the file made from a descriptor: a
listener on the socket behind it, of the type of the socket's transport; an
error when the descriptor is not open on a socket or the socket is a datagram
socket. -/
def fileListener (fd : Option Socket) : Except GoError Listener :=
  match fd with
  | none => Except.error GoError.invalidDescriptor
  | some s =>
    match s.kind with
    | SockKind.tcp => Except.ok (Listener.tcp s)
    | SockKind.unix => Except.ok (Listener.unix s)
    | SockKind.udp => Except.error GoError.einval

/-- The listener half of a library result: nil on error. -/
def listenerOf (r : Except GoError Listener) : Option Listener :=
  match r with
  | Except.ok l => some l
  | Except.error _ => none

/-- The error half of a library result: nil on success. -/
def errOf (r : Except GoError Listener) : Option GoError :=
  match r with
  | Except.ok _ => none
  | Except.error e => some e

/-- The type assertion `listener.(*net.TCPListener)` in its two-valued form:
the socket of a TCP listener, nothing for nil or for another type. -/
def asTCP (l : Option Listener) : Option Socket :=
  match l with
  | some (Listener.tcp s) => some s
  | _ => none

/-- The state of the globals `listener` and `err` after lines 38 to 47, the
effects of those lines, and whether they panicked. -/
structure Acquired where
  trace : List Effect
  listener : Option Listener
  err : Option GoError
  panicked : Bool
  deriving DecidableEq, Repr

/-- Lines 38 to 47.  With the flag, the listener is rebuilt from descriptor 3.
Without it, `net.Listen("udp", ":8080")` is called, the result is asserted to
be a TCP listener, `File()` is called on the asserted pointer (on a nil
pointer it returns nil and an error) and `fd.Name()` is evaluated for the
print, which dereferences `fd`: a nil `fd` panics. -/
def acquire (w : World) (graceful : Bool) : Acquired :=
  if graceful then
    let r := fileListener w.fd3
    { trace := [Effect.newFile 3, Effect.fileListener (listenerOf r).isSome,
        Effect.out "graceful-reborn"],
      listener := listenerOf r, err := errOf r, panicked := false }
  else
    let r := netListen w "udp" ":8080"
    let fd : Option OsFile :=
      match asTCP (listenerOf r) with
      | some s => if w.bootDupOk then some ⟨s⟩ else none
      | none => none
    match fd with
    | none =>
      { trace := [Effect.listen "udp" ":8080" (listenerOf r).isSome, Effect.listenerFile false],
        listener := listenerOf r, err := errOf r, panicked := true }
    | some _ =>
      { trace := [Effect.listen "udp" ":8080" (listenerOf r).isSome, Effect.listenerFile true,
          Effect.out "first-boot"],
        listener := listenerOf r, err := errOf r, panicked := false }

/-! ## The signal loop (lines 67 to 105) -/

/-- What the loop carries from one iteration to the next. -/
structure LoopState where
  /-- The number of signals received so far. -/
  iter : Nat
  /-- The wall clock. -/
  now : Nat
  /-- Whether `server.Shutdown` has been called.  `Shutdown` closes the listener
  `Serve` was launched on, which is the value of the global `listener`, and
  `File()` on a closed listener returns an error. -/
  closed : Bool
  deriving DecidableEq, Repr

/-- The command built at lines 89 and 90. -/
def childCmd (w : World) (currentFD : OsFile) : Cmd :=
  { name := w.osArgs.headD "", args := [w.osArgs.headD "", "-g"], extraFiles := [currentFD] }

/-- One iteration of the loop, lines 71 to 102, for the received signal `sig`:
its effects, and the state the loop goes on with, or `none` when the function
returns (lines 82, 87 and 95).  The context is created at line 73, right after
the receive and before the `switch`.  Receiving, `File()` and `Start()` take
the time the world says, the other statements none.  `File()` fails on a
listener that `Shutdown` has closed and otherwise when the world says so.
`Shutdown` returns when the requests in flight are done or when the context
expires, whichever comes first, and reports the context's error in the second
case.  After line 101 the `switch` is left and the loop goes on. -/
def onSignal (w : World) (listener : Option Listener) (st : LoopState) (sig : Signal) :
    List Effect × Option LoopState :=
  let tRecv := st.now + w.recvWait st.iter
  let head := [Effect.out ("signal: " ++ sigName sig), Effect.withTimeout tRecv shutdownTimeout]
  if sig = SIGTERM ∨ sig = SIGHUP then
    let head := head ++ [Effect.out "signal cause reloading", Effect.signalStop]
    match asTCP listener with
    | none => (head ++ [Effect.out "listener is not tcp listener"], none)
    | some s =>
      if st.closed = true ∨ w.dupOk st.iter = false then
        (head ++ [Effect.listenerFile false, Effect.out "acquiring listener file failed"], none)
      else
        let tFile := tRecv + w.fileTook st.iter
        let cmd := childCmd w ⟨s⟩
        let tStart := tFile + w.startTook st.iter
        match w.startPid st.iter with
        | none =>
          (head ++ [Effect.listenerFile true, Effect.start cmd none,
            Effect.out "cmd.Start fail"], none)
        | some pid =>
          let deadline := tRecv + shutdownTimeout
          let window := deadline - tStart
          (head ++ [Effect.listenerFile true, Effect.start cmd (some pid),
              Effect.out "forked new pid",
              Effect.shutdown tStart deadline (decide (window < w.drainNeeds)),
              Effect.out "graceful shutdown at"],
            some { iter := st.iter + 1, now := tStart + min w.drainNeeds window, closed := true })
  else
    (head, some { iter := st.iter + 1, now := tRecv, closed := st.closed })

/-- The `for` loop of lines 70 to 104 over the values the channel yields: when
there is nothing more to receive the main goroutine stays blocked at line 71. -/
def signalLoop (w : World) (listener : Option Listener) : LoopState → List Signal → Run
  | _, [] => ⟨[], Outcome.waiting⟩
  | st, sig :: rest =>
    match onSignal w listener st sig with
    | (tr, none) => ⟨tr, Outcome.returned⟩
    | (tr, some st') =>
      let r := signalLoop w listener st' rest
      ⟨tr ++ r.trace, r.outcome⟩

/-! ## `main` -/

/-- The state in which the loop is entered. -/
def initState (w : World) : LoopState :=
  { iter := 0, now := w.bootTime, closed := false }

/-- The function `main`, lines 35 to 106. -/
def main (w : World) : Run :=
  match flagParse w with
  | Except.error code => ⟨[], Outcome.exited code⟩
  | Except.ok graceful =>
    let a := acquire w graceful
    let t0 := Effect.out "start-up at" :: a.trace
    if a.panicked then ⟨t0, Outcome.panicked⟩
    else
      match a.err with
      | some _ => ⟨t0 ++ [Effect.out "Actual pid is", Effect.out "err"], Outcome.returned⟩
      | none =>
        let r := signalLoop w a.listener (initState w) w.signals
        ⟨t0 ++ [Effect.out "Actual pid is", Effect.out "listener:",
            Effect.goServe a.listener readTimeout, Effect.notify [SIGHUP, SIGTERM]] ++ r.trace,
          r.outcome⟩

/-! ## The world of a spawned child -/

/-- The world of the child that `cmd.Start` creates from `c`: its `os.Args` is
the argument vector of the command, its descriptor 3 is what `os/exec` puts
there; the rest is as in `env`. -/
def childWorld (env : World) (c : Cmd) : World :=
  { env with osArgs := c.args, fd3 := c.childFd 3 }

/-! ## Reading a trace -/

/-- Whether the effect is a call of `cmd.Start`. -/
def Effect.isStart : Effect → Bool
  | Effect.start _ _ => true
  | _ => false

/-- Whether the effect is a `cmd.Start` that created a child. -/
def Effect.isSpawned : Effect → Bool
  | Effect.start _ (some _) => true
  | _ => false

/-- Whether the effect is a call of `server.Shutdown`. -/
def Effect.isShutdown : Effect → Bool
  | Effect.shutdown _ _ _ => true
  | _ => false

/-- Whether the effect is the launch of `server.Serve`. -/
def Effect.isServe : Effect → Bool
  | Effect.goServe _ _ => true
  | _ => false

/-- Whether the effect is a call of `signal.Notify`. -/
def Effect.isNotify : Effect → Bool
  | Effect.notify _ => true
  | _ => false

/-- Whether the effect is a written line. -/
def Effect.isOut : Effect → Bool
  | Effect.out _ => true
  | _ => false

/-- The trace without the written lines. -/
def actions (tr : List Effect) : List Effect :=
  tr.filter (fun e => !e.isOut)

/-- Whether every `Shutdown` of the trace comes after a `cmd.Start` that
created a child, `spawned` telling whether one came before the trace. -/
def shutdownAfterSpawn (spawned : Bool) : List Effect → Bool
  | [] => true
  | e :: tr => (!e.isShutdown || spawned) && shutdownAfterSpawn (spawned || e.isSpawned) tr

/-- For every `Shutdown` of the trace, the time between the call and the
deadline of its context (zero when the context has expired before the call). -/
def drainWindows (tr : List Effect) : List Nat :=
  tr.filterMap fun e =>
    match e with
    | Effect.shutdown calledAt deadline _ => some (deadline - calledAt)
    | _ => none

/-! ## Names for the pieces of a run -/

/-- The two lines every iteration starts with. -/
def iterHead (w : World) (st : LoopState) (sig : Signal) : List Effect :=
  [Effect.out ("signal: " ++ sigName sig),
    Effect.withTimeout (st.now + w.recvWait st.iter) shutdownTimeout]

/-- The lines of a reloading iteration up to `signal.Stop`. -/
def reloadHead (w : World) (st : LoopState) (sig : Signal) : List Effect :=
  iterHead w st sig ++ [Effect.out "signal cause reloading", Effect.signalStop]

/-- The moment `cmd.Start` has returned in the iteration begun in `st`, which
is the moment `Shutdown` is called. -/
def spawnedAt (w : World) (st : LoopState) : Nat :=
  st.now + w.recvWait st.iter + w.fileTook st.iter + w.startTook st.iter

/-- The deadline of the context created in the iteration begun in `st`. -/
def deadlineOf (w : World) (st : LoopState) : Nat :=
  st.now + w.recvWait st.iter + shutdownTimeout

/-- The state after a restart whose spawn succeeded. -/
def drained (w : World) (st : LoopState) : LoopState :=
  { iter := st.iter + 1,
    now := spawnedAt w st + min w.drainNeeds (deadlineOf w st - spawnedAt w st),
    closed := true }

/-- The effects of a reborn process from start-up to `signal.Notify`. -/
def bootTrace (l : Listener) : List Effect :=
  [Effect.out "start-up at", Effect.newFile 3, Effect.fileListener true,
    Effect.out "graceful-reborn", Effect.out "Actual pid is", Effect.out "listener:",
    Effect.goServe (some l) readTimeout, Effect.notify [SIGHUP, SIGTERM]]

/-! ## Some worlds -/

/-- The listening TCP socket used in the examples. -/
def sock8080 : Socket := ⟨7, SockKind.tcp, ":8080"⟩

/-- A first boot with the address free: no flag, nothing at descriptor 3. -/
def firstBootWorld : World :=
  { osArgs := ["./gin"], fd3 := none, addrFree := true, freshId := 7, bootDupOk := true,
    signals := [], bootTime := 0, recvWait := fun _ => 0, dupOk := fun _ => true,
    fileTook := fun _ => 0, startPid := fun _ => some 4242, startTook := fun _ => 0,
    drainNeeds := 0 }

/-- A reborn process on `sock8080` that receives the given signals; every
library call succeeds and takes no time. -/
def rebornWorld (sigs : List Signal) : World :=
  { osArgs := ["./gin", "-g"], fd3 := some sock8080, addrFree := false, freshId := 8,
    bootDupOk := true, signals := sigs, bootTime := 0, recvWait := fun _ => 0,
    dupOk := fun _ => true, fileTook := fun _ => 0, startPid := fun _ => some 4242,
    startTook := fun _ => 0, drainNeeds := 0 }

/-- A reborn process that finds nothing open at descriptor 3. -/
def deadFdWorld : World :=
  { osArgs := ["./gin", "-g"], fd3 := none, addrFree := false, freshId := 8,
    bootDupOk := true, signals := [SIGHUP], bootTime := 0, recvWait := fun _ => 0,
    dupOk := fun _ => true, fileTook := fun _ => 0, startPid := fun _ => some 4242,
    startTook := fun _ => 0, drainNeeds := 0 }

/-- A reborn process on `sock8080` that receives one `SIGHUP` while requests
are in flight that need 30 seconds: longer than the context lives. -/
def slowDrainWorld : World :=
  { osArgs := ["./gin", "-g"], fd3 := some sock8080, addrFree := false, freshId := 8,
    bootDupOk := true, signals := [SIGHUP], bootTime := 0, recvWait := fun _ => 0,
    dupOk := fun _ => true, fileTook := fun _ => 0, startPid := fun _ => some 4242,
    startTook := fun _ => 0, drainNeeds := 30 * second }

/-- A reborn process on `sock8080` that receives two `SIGHUP` and whose
`cmd.Start` returns an error. -/
def spawnFailWorld : World :=
  { osArgs := ["./gin", "-g"], fd3 := some sock8080, addrFree := false, freshId := 8,
    bootDupOk := true, signals := [SIGHUP, SIGHUP], bootTime := 0, recvWait := fun _ => 0,
    dupOk := fun _ => true, fileTook := fun _ => 0, startPid := fun _ => none,
    startTook := fun _ => 0, drainNeeds := 0 }

/-- A reborn process on `sock8080` that receives one `SIGHUP` and cannot
duplicate the listening descriptor. -/
def dupFailWorld : World :=
  { osArgs := ["./gin", "-g"], fd3 := some sock8080, addrFree := false, freshId := 8,
    bootDupOk := true, signals := [SIGHUP], bootTime := 0, recvWait := fun _ => 0,
    dupOk := fun _ => false, fileTook := fun _ => 0, startPid := fun _ => some 4242,
    startTook := fun _ => 0, drainNeeds := 0 }

/-- A reborn process that got a Unix-domain socket at descriptor 3 and
receives one `SIGTERM`. -/
def unixWorld : World :=
  { osArgs := ["./gin", "-g"], fd3 := some ⟨9, SockKind.unix, "/run/gin.sock"⟩,
    addrFree := false, freshId := 8, bootDupOk := true, signals := [SIGTERM], bootTime := 0,
    recvWait := fun _ => 0, dupOk := fun _ => true, fileTook := fun _ => 0,
    startPid := fun _ => some 4242, startTook := fun _ => 0, drainNeeds := 0 }

/-- A reborn process on `sock8080` that receives one `SIGHUP` at time 5 s; the
duplication takes `fileTook` and the start `startTook`. -/
def timedWorld (fileTook startTook : Nat) : World :=
  { osArgs := ["./gin", "-g"], fd3 := some sock8080, addrFree := false, freshId := 8,
    bootDupOk := true, signals := [SIGHUP], bootTime := 0, recvWait := fun _ => 5 * second,
    dupOk := fun _ => true, fileTook := fun _ => fileTook, startPid := fun _ => some 4242,
    startTook := fun _ => startTook, drainNeeds := 0 }

/-- A reborn process on `sock8080` that receives `SIGHUP` and, buffered behind
it, `SIGTERM`, and cannot duplicate the listening descriptor. -/
def twiceDupFailWorld : World :=
  { osArgs := ["./gin", "-g"], fd3 := some sock8080, addrFree := false, freshId := 8,
    bootDupOk := true, signals := [SIGHUP, SIGTERM], bootTime := 0, recvWait := fun _ => 0,
    dupOk := fun _ => false, fileTook := fun _ => 0, startPid := fun _ => some 4242,
    startTook := fun _ => 0, drainNeeds := 0 }

/-- The time `ServeHTTP` sleeps at line 29 before it writes the response at
line 30: `10 * time.Second`. -/
def handlerSleep : Nat := 10 * second

/-- `ServeHTTP`, lines 27 to 33, for a request whose handling starts at
`startedAt`: the moment the response is written, after the sleep. -/
def ServeHTTP (startedAt : Nat) : Nat :=
  startedAt + handlerSleep

/-- Whether the effect is a `Shutdown` that returned without the context's
error: it returns so when no request is in flight any more. -/
def Effect.isDrained : Effect → Bool
  | Effect.shutdown _ _ false => true
  | _ => false

/-- A reborn process on `sock8080` with requests in flight that need the 10 s
of the handler; it receives one `SIGHUP` and `cmd.Start` returns an error. -/
def inflightFailWorld : World :=
  { osArgs := ["./gin", "-g"], fd3 := some sock8080, addrFree := false, freshId := 8,
    bootDupOk := true, signals := [SIGHUP], bootTime := 0, recvWait := fun _ => 0,
    dupOk := fun _ => true, fileTook := fun _ => 0, startPid := fun _ => none,
    startTook := fun _ => 0, drainNeeds := handlerSleep }

/-- A reborn process on `sock8080` that receives two `SIGHUP`, the second
buffered behind the first; `cmd.Start` takes 15 s, and when `Shutdown` is
called the requests in flight need 10 s. -/
def slowStartWorld : World :=
  { osArgs := ["./gin", "-g"], fd3 := some sock8080, addrFree := false, freshId := 8,
    bootDupOk := true, signals := [SIGHUP, SIGHUP], bootTime := 0, recvWait := fun _ => 0,
    dupOk := fun _ => true, fileTook := fun _ => 0, startPid := fun _ => some 4242,
    startTook := fun _ => 15 * second, drainNeeds := handlerSleep }

/-- A reborn process on `sock8080` that receives one `SIGHUP` while a request
is in flight that needs the 10 s of the handler from then on; the duplication
takes 1 s and the start 2 s, so 7 s are needed when `Shutdown` is called. -/
def inflightWorld : World :=
  { osArgs := ["./gin", "-g"], fd3 := some sock8080, addrFree := false, freshId := 8,
    bootDupOk := true, signals := [SIGHUP], bootTime := 0, recvWait := fun _ => 0,
    dupOk := fun _ => true, fileTook := fun _ => second, startPid := fun _ => some 4242,
    startTook := fun _ => 2 * second, drainNeeds := 7 * second }

/-! # Properties

## The five ways an iteration can go -/

theorem onSignal_other (w : World) (l : Option Listener) (st : LoopState) (sig : Signal)
    (h : ¬ (sig = SIGTERM ∨ sig = SIGHUP)) :
    onSignal w l st sig =
      (iterHead w st sig,
        some { iter := st.iter + 1, now := st.now + w.recvWait st.iter, closed := st.closed }) := by
  simp only [onSignal, iterHead, if_neg h]

theorem onSignal_notTCP (w : World) (l : Option Listener) (st : LoopState) (sig : Signal)
    (h : sig = SIGTERM ∨ sig = SIGHUP) (hl : asTCP l = none) :
    onSignal w l st sig =
      (reloadHead w st sig ++ [Effect.out "listener is not tcp listener"], none) := by
  simp only [onSignal, reloadHead, iterHead, if_pos h, hl]

theorem onSignal_fileFails (w : World) (l : Option Listener) (st : LoopState) (sig : Signal)
    (s : Socket) (h : sig = SIGTERM ∨ sig = SIGHUP) (hl : asTCP l = some s)
    (hf : st.closed = true ∨ w.dupOk st.iter = false) :
    onSignal w l st sig =
      (reloadHead w st sig ++
        [Effect.listenerFile false, Effect.out "acquiring listener file failed"], none) := by
  simp only [onSignal, reloadHead, iterHead, if_pos h, hl, if_pos hf]

theorem onSignal_startFails (w : World) (l : Option Listener) (st : LoopState) (sig : Signal)
    (s : Socket) (h : sig = SIGTERM ∨ sig = SIGHUP) (hl : asTCP l = some s)
    (hf : ¬ (st.closed = true ∨ w.dupOk st.iter = false)) (hs : w.startPid st.iter = none) :
    onSignal w l st sig =
      (reloadHead w st sig ++
        [Effect.listenerFile true, Effect.start (childCmd w ⟨s⟩) none,
          Effect.out "cmd.Start fail"], none) := by
  simp only [onSignal, reloadHead, iterHead, if_pos h, hl, if_neg hf, hs]

theorem onSignal_restarts (w : World) (l : Option Listener) (st : LoopState) (sig : Signal)
    (s : Socket) (pid : Nat) (h : sig = SIGTERM ∨ sig = SIGHUP) (hl : asTCP l = some s)
    (hf : ¬ (st.closed = true ∨ w.dupOk st.iter = false))
    (hs : w.startPid st.iter = some pid) :
    onSignal w l st sig =
      (reloadHead w st sig ++
        [Effect.listenerFile true, Effect.start (childCmd w ⟨s⟩) (some pid),
          Effect.out "forked new pid",
          Effect.shutdown (spawnedAt w st) (deadlineOf w st)
            (decide (deadlineOf w st - spawnedAt w st < w.drainNeeds)),
          Effect.out "graceful shutdown at"],
        some (drained w st)) := by
  simp only [onSignal, reloadHead, iterHead, if_pos h, hl, if_neg hf, hs, spawnedAt,
    deadlineOf, drained]

/-! ## The loop once the listener is closed -/

/-- After `Shutdown` the loop neither starts a process nor calls `Shutdown`
again: a further reload signal fails at `File()` and returns. -/
theorem signalLoop_closed (w : World) (l : Option Listener) (sigs : List Signal) :
    ∀ st : LoopState, st.closed = true →
      (signalLoop w l st sigs).trace.countP Effect.isStart = 0 ∧
      (signalLoop w l st sigs).trace.countP Effect.isShutdown = 0 := by
  induction sigs with
  | nil => intro st _; simp [signalLoop]
  | cons sig rest ih =>
    intro st hc
    by_cases h : sig = SIGTERM ∨ sig = SIGHUP
    · cases hl : asTCP l with
      | none =>
        simp [signalLoop, onSignal_notTCP w l st sig h hl, reloadHead, iterHead,
          Effect.isStart, Effect.isShutdown]
      | some s =>
        simp [signalLoop, onSignal_fileFails w l st sig s h hl (Or.inl hc), reloadHead,
          iterHead, Effect.isStart, Effect.isShutdown]
    · have := ih { iter := st.iter + 1, now := st.now + w.recvWait st.iter, closed := st.closed } hc
      simp [signalLoop, onSignal_other w l st sig h, iterHead, Effect.isStart,
        Effect.isShutdown, this]

/-- The loop never launches `Serve` and never calls `signal.Notify`. -/
theorem signalLoop_noServe (w : World) (l : Option Listener) (sigs : List Signal) :
    ∀ st : LoopState,
      (signalLoop w l st sigs).trace.countP Effect.isServe = 0 ∧
      (signalLoop w l st sigs).trace.countP Effect.isNotify = 0 := by
  induction sigs with
  | nil => intro st; simp [signalLoop]
  | cons sig rest ih =>
    intro st
    by_cases h : sig = SIGTERM ∨ sig = SIGHUP
    · cases hl : asTCP l with
      | none =>
        simp [signalLoop, onSignal_notTCP w l st sig h hl, reloadHead, iterHead,
          Effect.isServe, Effect.isNotify]
      | some s =>
        by_cases hf : st.closed = true ∨ w.dupOk st.iter = false
        · simp [signalLoop, onSignal_fileFails w l st sig s h hl hf, reloadHead,
            iterHead, Effect.isServe, Effect.isNotify]
        · cases hs : w.startPid st.iter with
          | none =>
            simp [signalLoop, onSignal_startFails w l st sig s h hl hf hs, reloadHead,
              iterHead, Effect.isServe, Effect.isNotify]
          | some pid =>
            have := ih (drained w st)
            simp [signalLoop, onSignal_restarts w l st sig s pid h hl hf hs, reloadHead,
              iterHead, Effect.isServe, Effect.isNotify, this]
    · have := ih { iter := st.iter + 1, now := st.now + w.recvWait st.iter, closed := st.closed }
      simp [signalLoop, onSignal_other w l st sig h, iterHead, Effect.isServe,
        Effect.isNotify, this]

/-! ## The four ways `main` can go -/

theorem netListen_udp (w : World) (address : String) :
    netListen w "udp" address = Except.error GoError.unexpectedAddressType := by
  simp [netListen]

theorem acquire_firstBoot (w : World) :
    acquire w false =
      { trace := [Effect.listen "udp" ":8080" false, Effect.listenerFile false],
        listener := none, err := some GoError.unexpectedAddressType, panicked := true } := by
  simp [acquire, netListen_udp, listenerOf, errOf, asTCP]

theorem main_usage (w : World) (code : Nat) (hg : flagParse w = Except.error code) :
    main w = ⟨[], Outcome.exited code⟩ := by
  simp [main, hg]

theorem main_firstBoot (w : World) (hg : flagParse w = Except.ok false) :
    main w =
      ⟨[Effect.out "start-up at", Effect.listen "udp" ":8080" false, Effect.listenerFile false],
        Outcome.panicked⟩ := by
  simp [main, hg, acquire_firstBoot]

theorem main_rebornFails (w : World) (e : GoError) (hg : flagParse w = Except.ok true)
    (hl : fileListener w.fd3 = Except.error e) :
    main w =
      ⟨[Effect.out "start-up at", Effect.newFile 3, Effect.fileListener false,
          Effect.out "graceful-reborn", Effect.out "Actual pid is", Effect.out "err"],
        Outcome.returned⟩ := by
  simp [main, hg, acquire, hl, listenerOf, errOf]

theorem main_reborn (w : World) (l : Listener) (hg : flagParse w = Except.ok true)
    (hl : fileListener w.fd3 = Except.ok l) :
    main w =
      ⟨bootTrace l ++ (signalLoop w (some l) (initState w) w.signals).trace,
        (signalLoop w (some l) (initState w) w.signals).outcome⟩ := by
  simp [main, hg, acquire, hl, listenerOf, errOf, bootTrace]

/-! ## Acquisition -/

/-- C7: whichever way the socket is acquired, when acquisition leaves an error
in `err` the process ends (`main` returns for a reborn process, the first boot
panics) and the run has launched no `Serve`, registered for no signal and
started no child. -/
theorem acquisition_error_is_fatal (w : World) (graceful : Bool)
    (hg : flagParse w = Except.ok graceful) (he : (acquire w graceful).err ≠ none) :
    (main w).outcome.processGone = true ∧
    (main w).outcome = (if graceful then Outcome.returned else Outcome.panicked) ∧
    (main w).trace.countP Effect.isServe = 0 ∧
    (main w).trace.countP Effect.isNotify = 0 ∧
    (main w).trace.countP Effect.isStart = 0 := by
  cases graceful with
  | false =>
    simp [main_firstBoot w hg, Outcome.processGone, Effect.isServe, Effect.isNotify,
      Effect.isStart]
  | true =>
    cases hl : fileListener w.fd3 with
    | error e =>
      simp [main_rebornFails w e hg hl, Outcome.processGone, Effect.isServe, Effect.isNotify,
        Effect.isStart]
    | ok l =>
      exact absurd (by simp [acquire, hl, errOf]) he

/-- The witness of C7: a reborn process with nothing at descriptor 3. -/
theorem acquisition_error_is_fatal_witness :
    flagParse deadFdWorld = Except.ok true ∧ (acquire deadFdWorld true).err ≠ none ∧
    (main deadFdWorld).outcome.processGone = true ∧
    (main deadFdWorld).outcome = Outcome.returned ∧
    (main deadFdWorld).trace.countP Effect.isServe = 0 ∧
    (main deadFdWorld).trace.countP Effect.isNotify = 0 ∧
    (main deadFdWorld).trace.countP Effect.isStart = 0 :=
  ⟨rfl, by decide, acquisition_error_is_fatal deadFdWorld true rfl (by decide)⟩

/-- C5: the first boot never gets a listener.  In every world the acquisition
without the flag asks `net.Listen` for the network `udp`, which `net.Listen`
refuses, so `listener` stays nil, `err` is set and the print at line 46 panics;
on a first boot with the address `:8080` free the run ends in that panic
without having launched `Serve`. -/
theorem first_boot_panics :
    (∀ w : World, (acquire w false).listener = none ∧
      (acquire w false).err = some GoError.unexpectedAddressType ∧
      (acquire w false).panicked = true) ∧
    firstBootWorld.addrFree = true ∧
    flagParse firstBootWorld = Except.ok false ∧
    main firstBootWorld =
      ⟨[Effect.out "start-up at", Effect.listen "udp" ":8080" false,
          Effect.listenerFile false], Outcome.panicked⟩ ∧
    (main firstBootWorld).trace.countP Effect.isServe = 0 := by
  refine ⟨fun w => by simp [acquire_firstBoot], rfl, rfl, ?_, ?_⟩
  · exact main_firstBoot firstBootWorld rfl
  · simp [main_firstBoot firstBootWorld rfl, Effect.isServe]

/-! ## After `Shutdown` -/

/-- C4: after `Shutdown` has returned the loop goes back to the receive.  A
reborn process that gets one `SIGHUP` (or one `SIGTERM`) spawns, calls
`Shutdown` once and is then blocked at line 71 instead of returning, also when
`Shutdown` returned the context's error; and in every world an iteration that
has called `Shutdown` hands the loop a next state instead of returning. -/
theorem shutdown_then_waits :
    (main (rebornWorld [SIGHUP])).outcome = Outcome.waiting ∧
    (main (rebornWorld [SIGHUP])).trace.countP Effect.isShutdown = 1 ∧
    (main (rebornWorld [SIGTERM])).outcome = Outcome.waiting ∧
    (main (rebornWorld [SIGTERM])).trace.countP Effect.isShutdown = 1 ∧
    (main slowDrainWorld).outcome = Outcome.waiting ∧
    Effect.shutdown 0 shutdownTimeout true ∈ (main slowDrainWorld).trace ∧
    (∀ (w : World) (l : Option Listener) (st : LoopState) (sig : Signal),
      (onSignal w l st sig).1.countP Effect.isShutdown = 0 ∨
      (onSignal w l st sig).2.isSome = true) := by
  refine ⟨by decide, by decide, by decide, by decide, by decide, by decide, ?_⟩
  intro w l st sig
  by_cases h : sig = SIGTERM ∨ sig = SIGHUP
  · cases hl : asTCP l with
    | none =>
      left
      simp [onSignal_notTCP w l st sig h hl, reloadHead, iterHead, Effect.isShutdown]
    | some s =>
      by_cases hf : st.closed = true ∨ w.dupOk st.iter = false
      · left
        simp [onSignal_fileFails w l st sig s h hl hf, reloadHead, iterHead,
          Effect.isShutdown]
      · cases hs : w.startPid st.iter with
        | none =>
          left
          simp [onSignal_startFails w l st sig s h hl hf hs, reloadHead, iterHead,
            Effect.isShutdown]
        | some pid =>
          right
          simp [onSignal_restarts w l st sig s pid h hl hf hs]
  · right
    simp [onSignal_other w l st sig h]

/-! ## What every loop does -/

/-- Whatever the state, the loop calls `cmd.Start` at most once and `Shutdown`
at most once. -/
theorem signalLoop_atMostOnce (w : World) (l : Option Listener) (sigs : List Signal) :
    ∀ st : LoopState,
      (signalLoop w l st sigs).trace.countP Effect.isStart ≤ 1 ∧
      (signalLoop w l st sigs).trace.countP Effect.isShutdown ≤ 1 := by
  induction sigs with
  | nil => intro st; simp [signalLoop]
  | cons sig rest ih =>
    intro st
    by_cases h : sig = SIGTERM ∨ sig = SIGHUP
    · cases hl : asTCP l with
      | none =>
        simp [signalLoop, onSignal_notTCP w l st sig h hl, reloadHead, iterHead,
          Effect.isStart, Effect.isShutdown]
      | some s =>
        by_cases hf : st.closed = true ∨ w.dupOk st.iter = false
        · simp [signalLoop, onSignal_fileFails w l st sig s h hl hf, reloadHead,
            iterHead, Effect.isStart, Effect.isShutdown]
        · cases hs : w.startPid st.iter with
          | none =>
            simp [signalLoop, onSignal_startFails w l st sig s h hl hf hs, reloadHead,
              iterHead, Effect.isStart, Effect.isShutdown]
          | some pid =>
            have hc := signalLoop_closed w l rest (drained w st) rfl
            simp [signalLoop, onSignal_restarts w l st sig s pid h hl hf hs, reloadHead,
              iterHead, Effect.isStart, Effect.isShutdown, hc]
    · have := ih { iter := st.iter + 1, now := st.now + w.recvWait st.iter, closed := st.closed }
      simpa [signalLoop, onSignal_other w l st sig h, iterHead, Effect.isStart,
        Effect.isShutdown] using this

/-- Every `cmd.Start` of the loop runs the command of lines 89 and 90 on a file
duplicated from the TCP listener. -/
theorem signalLoop_startCmd (w : World) (l : Option Listener) (c : Cmd) (p : Option Nat)
    (sigs : List Signal) :
    ∀ st : LoopState, Effect.start c p ∈ (signalLoop w l st sigs).trace →
      ∃ s, asTCP l = some s ∧ c = childCmd w ⟨s⟩ := by
  induction sigs with
  | nil => intro st; simp [signalLoop]
  | cons sig rest ih =>
    intro st
    by_cases h : sig = SIGTERM ∨ sig = SIGHUP
    · cases hl : asTCP l with
      | none =>
        simp [signalLoop, onSignal_notTCP w l st sig h hl, reloadHead, iterHead]
      | some s =>
        by_cases hf : st.closed = true ∨ w.dupOk st.iter = false
        · simp [signalLoop, onSignal_fileFails w l st sig s h hl hf, reloadHead, iterHead]
        · cases hs : w.startPid st.iter with
          | none =>
            simp [signalLoop, onSignal_startFails w l st sig s h hl hf hs, reloadHead,
              iterHead]
            intro hc _
            exact hc
          | some pid =>
            have hc := (signalLoop_closed w l rest (drained w st) rfl).1
            rw [List.countP_eq_zero] at hc
            simp [signalLoop, onSignal_restarts w l st sig s pid h hl hf hs, reloadHead,
              iterHead]
            rintro (⟨hc', _⟩ | hm)
            · exact hc'
            · exact absurd (by simp [Effect.isStart]) (hc _ hm)
    · have := ih { iter := st.iter + 1, now := st.now + w.recvWait st.iter, closed := st.closed }
      simpa [signalLoop, onSignal_other w l st sig h, iterHead] using this

/-- A `Listener.tcp` comes out of `net.FileListener` only for a TCP socket open
at the descriptor. -/
theorem fileListener_tcp (fd : Option Socket) (s : Socket)
    (h : fileListener fd = Except.ok (Listener.tcp s)) : fd = some s ∧ s.kind = SockKind.tcp := by
  cases fd with
  | none => simp [fileListener] at h
  | some t =>
    cases hk : t.kind <;> simp [fileListener, hk] at h
    subst h
    exact ⟨rfl, hk⟩

/-- A run that has launched `Serve` on a listener is the run of a reborn
process that got this listener from descriptor 3. -/
theorem serving_inv (w : World) (l : Listener) (rt : Nat)
    (h : Effect.goServe (some l) rt ∈ (main w).trace) :
    flagParse w = Except.ok true ∧ fileListener w.fd3 = Except.ok l := by
  cases hg : flagParse w with
  | error code => simp [main_usage w code hg] at h
  | ok g =>
    cases g with
    | false => simp [main_firstBoot w hg] at h
    | true =>
      cases hl : fileListener w.fd3 with
      | error e => simp [main_rebornFails w e hg hl] at h
      | ok l' =>
        have hn := (signalLoop_noServe w (some l') w.signals (initState w)).1
        rw [List.countP_eq_zero] at hn
        simp [main_reborn w l' hg hl, bootTrace] at h
        rcases h with ⟨h1, _⟩ | hm
        · simp [h1]
        · exact absurd (by simp [Effect.isServe]) (hn _ hm)

/-- A successful start is a start. -/
theorem countP_spawned_le (tr : List Effect) :
    tr.countP Effect.isSpawned ≤ tr.countP Effect.isStart := by
  apply List.countP_mono_left
  intro e _ he
  cases e <;> simp_all [Effect.isSpawned, Effect.isStart]

/-- In every run `cmd.Start` is called at most once. -/
theorem main_start_le_one (w : World) : (main w).trace.countP Effect.isStart ≤ 1 := by
  cases hg : flagParse w with
  | error code => simp [main_usage w code hg]
  | ok g =>
    cases g with
    | false => simp [main_firstBoot w hg, Effect.isStart]
    | true =>
      cases hl : fileListener w.fd3 with
      | error e => simp [main_rebornFails w e hg hl, Effect.isStart]
      | ok l =>
        have := (signalLoop_atMostOnce w (some l) w.signals (initState w)).1
        simpa [main_reborn w l hg hl, bootTrace, Effect.isStart] using this

/-! ## One spawn for two signals -/

/-- C2, as the code has it: a run calls `cmd.Start` at most once, whatever the
channel yields.  When the generation serves a TCP listener, the channel yields
two reload signals one after the other (the second one buffered while the
first is being handled) and the first restart gets its descriptor and its
child, then exactly one `cmd.Start` is made in the whole run and exactly one
child is created: the iteration of the second signal fails at `File()` on the
closed listener and returns before line 89.  When the first restart fails (the
listener is no TCP listener, `File()` fails or `cmd.Start` fails) no child is
created at all and `main` returns, whatever else the channel holds. -/
theorem restart_spawns_once (w : World) :
    (main w).trace.countP Effect.isStart ≤ 1 ∧
    (∀ (s : Socket) (s1 s2 : Signal) (rest : List Signal) (pid : Nat),
      Effect.goServe (some (Listener.tcp s)) readTimeout ∈ (main w).trace →
      w.signals = s1 :: s2 :: rest →
      (s1 = SIGTERM ∨ s1 = SIGHUP) → (s2 = SIGTERM ∨ s2 = SIGHUP) →
      w.dupOk 0 = true → w.startPid 0 = some pid →
      (main w).trace.countP Effect.isStart = 1 ∧
      (main w).trace.countP Effect.isSpawned = 1 ∧
      (main w).outcome = Outcome.returned) ∧
    (∀ (l : Listener) (s1 : Signal) (rest : List Signal),
      Effect.goServe (some l) readTimeout ∈ (main w).trace →
      w.signals = s1 :: rest → (s1 = SIGTERM ∨ s1 = SIGHUP) →
      (asTCP (some l) = none ∨ w.dupOk 0 = false ∨ w.startPid 0 = none) →
      (main w).trace.countP Effect.isSpawned = 0 ∧
      (main w).outcome = Outcome.returned) := by
  refine ⟨main_start_le_one w, ?_, ?_⟩
  · intro s s1 s2 rest pid hserve hsig h1 h2 hdup hpid
    obtain ⟨hg, hl⟩ := serving_inv w _ _ hserve
    have hf : ¬ ((initState w).closed = true ∨ w.dupOk (initState w).iter = false) := by
      simp [initState, hdup]
    have e1 := onSignal_restarts w (some (Listener.tcp s)) (initState w) s1 s pid h1 rfl hf
      (by simpa [initState] using hpid)
    have e2 := onSignal_fileFails w (some (Listener.tcp s)) (drained w (initState w)) s2 s h2
      rfl (Or.inl rfl)
    simp [main_reborn w _ hg hl, hsig, signalLoop, e1, e2, bootTrace, reloadHead, iterHead,
      Effect.isStart, Effect.isSpawned]
  · intro l s1 rest hserve hsig h1 hx
    obtain ⟨hg, hl⟩ := serving_inv w _ _ hserve
    cases ht : asTCP (some l) with
    | none =>
      simp [main_reborn w _ hg hl, hsig, signalLoop, onSignal_notTCP w _ (initState w) s1 h1 ht,
        bootTrace, reloadHead, iterHead, Effect.isSpawned]
    | some s =>
      by_cases hf : (initState w).closed = true ∨ w.dupOk (initState w).iter = false
      · simp [main_reborn w _ hg hl, hsig, signalLoop,
          onSignal_fileFails w _ (initState w) s1 s h1 ht hf, bootTrace, reloadHead, iterHead,
          Effect.isSpawned]
      · have hd : w.dupOk 0 = true := by
          simpa [initState] using hf
        have hs : w.startPid (initState w).iter = none := by
          rcases hx with hx | hx | hx
          · simp [ht] at hx
          · simp [hd] at hx
          · simpa [initState] using hx
        simp [main_reborn w _ hg hl, hsig, signalLoop,
          onSignal_startFails w _ (initState w) s1 s h1 ht hf hs, bootTrace, reloadHead,
          iterHead, Effect.isSpawned]

/-- The witness of C2 as amended: a reborn process on a TCP socket that
receives `SIGHUP` and, buffered behind it, `SIGTERM`. -/
theorem restart_spawns_once_witness :
    Effect.goServe (some (Listener.tcp sock8080)) readTimeout
      ∈ (main (rebornWorld [SIGHUP, SIGTERM])).trace ∧
    (main (rebornWorld [SIGHUP, SIGTERM])).trace.countP Effect.isStart = 1 ∧
    (main (rebornWorld [SIGHUP, SIGTERM])).trace.countP Effect.isSpawned = 1 ∧
    (main (rebornWorld [SIGHUP, SIGTERM])).outcome = Outcome.returned :=
  ⟨by decide,
    (restart_spawns_once (rebornWorld [SIGHUP, SIGTERM])).2.1 sock8080 SIGHUP SIGTERM [] 4242
      (by decide) rfl (Or.inr rfl) (Or.inl rfl) rfl rfl⟩

/-- C2 as stated fails: a generation that serves a TCP listener receives two
`SIGHUP`, the second buffered behind the first, and `cmd.Start` returns an
error, or `File()` does: no child process is created, not exactly one. -/
theorem restart_spawns_once_refuted :
    Effect.goServe (some (Listener.tcp sock8080)) readTimeout ∈ (main spawnFailWorld).trace ∧
    spawnFailWorld.signals = [SIGHUP, SIGHUP] ∧
    (main spawnFailWorld).trace.countP Effect.isSpawned = 0 ∧
    ¬ ((main spawnFailWorld).trace.countP Effect.isSpawned = 1) ∧
    Effect.goServe (some (Listener.tcp sock8080)) readTimeout ∈ (main twiceDupFailWorld).trace ∧
    twiceDupFailWorld.signals = [SIGHUP, SIGTERM] ∧
    (main twiceDupFailWorld).trace.countP Effect.isStart = 0 ∧
    ¬ ((main twiceDupFailWorld).trace.countP Effect.isSpawned = 1) := by
  decide

/-! ## `Shutdown` only after a successful spawn -/

theorem shutdownAfterSpawn_true (tr : List Effect) (h : tr.countP Effect.isShutdown = 0) :
    ∀ b, shutdownAfterSpawn b tr = true := by
  induction tr with
  | nil => intro b; rfl
  | cons e tr ih =>
    intro b
    rw [List.countP_cons] at h
    have he : e.isShutdown = false := by
      cases hs : e.isShutdown
      · rfl
      · simp [hs] at h
    have ht : tr.countP Effect.isShutdown = 0 := by omega
    simp [shutdownAfterSpawn, he, ih ht]

theorem shutdownAfterSpawn_append (xs ys : List Effect) :
    ∀ b, shutdownAfterSpawn b (xs ++ ys) =
      (shutdownAfterSpawn b xs && shutdownAfterSpawn (b || xs.any Effect.isSpawned) ys) := by
  induction xs with
  | nil => intro b; simp [shutdownAfterSpawn]
  | cons e xs ih =>
    intro b
    simp [shutdownAfterSpawn, ih, Bool.and_assoc, Bool.or_assoc]

/-- What the check means: in front of every `Shutdown` there is a successful
`cmd.Start`. -/
theorem shutdownAfterSpawn_split (tr : List Effect) :
    ∀ (b : Bool) (pre post : List Effect) (e : Effect), shutdownAfterSpawn b tr = true →
      tr = pre ++ e :: post → e.isShutdown = true →
      b = true ∨ pre.any Effect.isSpawned = true := by
  induction tr with
  | nil => intro b pre post e _ h; simp at h
  | cons x tr ih =>
    intro b pre post e hc hsplit he
    cases pre with
    | nil =>
      simp at hsplit
      obtain ⟨hx, _⟩ := hsplit
      subst hx
      simp [shutdownAfterSpawn, he] at hc
      exact Or.inl hc.1
    | cons p pre =>
      simp at hsplit
      obtain ⟨hx, ht⟩ := hsplit
      subst hx
      simp only [shutdownAfterSpawn, Bool.and_eq_true] at hc
      rcases ih (b || x.isSpawned) pre post e hc.2 ht he with h | h
      · simp only [Bool.or_eq_true] at h
        rcases h with h | h
        · exact Or.inl h
        · right; simp [h]
      · right; simp [h]

theorem signalLoop_ordered (w : World) (l : Option Listener) (sigs : List Signal) :
    ∀ st : LoopState, shutdownAfterSpawn false (signalLoop w l st sigs).trace = true := by
  induction sigs with
  | nil => intro st; simp [signalLoop, shutdownAfterSpawn]
  | cons sig rest ih =>
    intro st
    by_cases h : sig = SIGTERM ∨ sig = SIGHUP
    · cases hl : asTCP l with
      | none =>
        simp [signalLoop, onSignal_notTCP w l st sig h hl, reloadHead, iterHead,
          shutdownAfterSpawn, Effect.isSpawned, Effect.isShutdown]
      | some s =>
        by_cases hf : st.closed = true ∨ w.dupOk st.iter = false
        · simp [signalLoop, onSignal_fileFails w l st sig s h hl hf, reloadHead,
            iterHead, shutdownAfterSpawn, Effect.isSpawned, Effect.isShutdown]
        · cases hs : w.startPid st.iter with
          | none =>
            simp [signalLoop, onSignal_startFails w l st sig s h hl hf hs, reloadHead,
              iterHead, shutdownAfterSpawn, Effect.isSpawned, Effect.isShutdown]
          | some pid =>
            have hc := shutdownAfterSpawn_true _
              (signalLoop_closed w l rest (drained w st) rfl).2
            simp [signalLoop, onSignal_restarts w l st sig s pid h hl hf hs, reloadHead,
              iterHead, shutdownAfterSpawn, Effect.isSpawned, Effect.isShutdown, hc]
    · have := ih { iter := st.iter + 1, now := st.now + w.recvWait st.iter, closed := st.closed }
      simpa [signalLoop, onSignal_other w l st sig h, iterHead, shutdownAfterSpawn,
        Effect.isSpawned, Effect.isShutdown] using this

theorem main_ordered (w : World) : shutdownAfterSpawn false (main w).trace = true := by
  cases hg : flagParse w with
  | error code => simp [main_usage w code hg, shutdownAfterSpawn]
  | ok g =>
    cases g with
    | false =>
      simp [main_firstBoot w hg, shutdownAfterSpawn, Effect.isShutdown, Effect.isSpawned]
    | true =>
      cases hl : fileListener w.fd3 with
      | error e =>
        simp [main_rebornFails w e hg hl, shutdownAfterSpawn, Effect.isShutdown,
          Effect.isSpawned]
      | ok l =>
        have := signalLoop_ordered w (some l) w.signals (initState w)
        simpa [main_reborn w l hg hl, bootTrace, shutdownAfterSpawn, Effect.isShutdown,
          Effect.isSpawned] using this

theorem main_shutdown_le_one (w : World) : (main w).trace.countP Effect.isShutdown ≤ 1 := by
  cases hg : flagParse w with
  | error code => simp [main_usage w code hg]
  | ok g =>
    cases g with
    | false => simp [main_firstBoot w hg, Effect.isShutdown]
    | true =>
      cases hl : fileListener w.fd3 with
      | error e => simp [main_rebornFails w e hg hl, Effect.isShutdown]
      | ok l =>
        have := (signalLoop_atMostOnce w (some l) w.signals (initState w)).2
        simpa [main_reborn w l hg hl, bootTrace, Effect.isShutdown] using this

/-! ## The order of a restart -/

/-- C9: a generation that serves a TCP listener and receives `SIGHUP` or
`SIGTERM`, with `File()` and `cmd.Start` succeeding, does after boot (log
lines apart): create the context, stop signal delivery, duplicate the
listening descriptor, start the child, call `Shutdown` at the moment
`cmd.Start` has returned; the sequence does not mention which of the two
signals it was, and `Shutdown` is called once in that run.  In every world an
iteration does the same for `SIGHUP` as for `SIGTERM`, a run calls `Shutdown`
at most once, and every `Shutdown` has a `cmd.Start` that created a child in
front of it. -/
theorem reload_effect_sequence (w : World) :
    (∀ (s : Socket) (sig : Signal) (rest : List Signal) (pid : Nat),
      Effect.goServe (some (Listener.tcp s)) readTimeout ∈ (main w).trace →
      w.signals = sig :: rest → (sig = SIGTERM ∨ sig = SIGHUP) →
      w.dupOk 0 = true → w.startPid 0 = some pid →
      [Effect.newFile 3, Effect.fileListener true,
        Effect.goServe (some (Listener.tcp s)) readTimeout, Effect.notify [SIGHUP, SIGTERM],
        Effect.withTimeout (w.bootTime + w.recvWait 0) shutdownTimeout,
        Effect.signalStop,
        Effect.listenerFile true,
        Effect.start (childCmd w ⟨s⟩) (some pid),
        Effect.shutdown (w.bootTime + w.recvWait 0 + w.fileTook 0 + w.startTook 0)
          (w.bootTime + w.recvWait 0 + shutdownTimeout)
          (decide (w.bootTime + w.recvWait 0 + shutdownTimeout
            - (w.bootTime + w.recvWait 0 + w.fileTook 0 + w.startTook 0) < w.drainNeeds))]
        <+: actions (main w).trace ∧
      (main w).trace.countP Effect.isShutdown = 1) ∧
    (∀ (l : Option Listener) (st : LoopState),
      actions (onSignal w l st SIGHUP).1 = actions (onSignal w l st SIGTERM).1 ∧
      (onSignal w l st SIGHUP).2 = (onSignal w l st SIGTERM).2) ∧
    (main w).trace.countP Effect.isShutdown ≤ 1 ∧
    ∀ (pre post : List Effect) (e : Effect), (main w).trace = pre ++ e :: post →
      e.isShutdown = true → pre.any Effect.isSpawned = true := by
  refine ⟨?_, ?_, main_shutdown_le_one w, ?_⟩
  · intro s sig rest pid hserve hsig h hdup hpid
    obtain ⟨hg, hl⟩ := serving_inv w _ _ hserve
    have hf : ¬ ((initState w).closed = true ∨ w.dupOk (initState w).iter = false) := by
      simp [initState, hdup]
    have e1 := onSignal_restarts w (some (Listener.tcp s)) (initState w) sig s pid h rfl hf
      (by simpa [initState] using hpid)
    have hc := (signalLoop_closed w (some (Listener.tcp s)) rest (drained w (initState w)) rfl).2
    constructor
    · simp only [main_reborn w _ hg hl, hsig, signalLoop, e1]
      simp [bootTrace, reloadHead, iterHead, actions, Effect.isOut, spawnedAt, deadlineOf,
        initState]
    · simp [main_reborn w _ hg hl, hsig, signalLoop, e1, bootTrace, reloadHead, iterHead,
        Effect.isShutdown, hc]
  · intro l st
    have h1 : SIGHUP = SIGTERM ∨ SIGHUP = SIGHUP := Or.inr rfl
    have h2 : SIGTERM = SIGTERM ∨ SIGTERM = SIGHUP := Or.inl rfl
    cases hl : asTCP l with
    | none =>
      simp [onSignal_notTCP w l st _ h1 hl, onSignal_notTCP w l st _ h2 hl, reloadHead,
        iterHead, actions, Effect.isOut]
    | some s =>
      by_cases hf : st.closed = true ∨ w.dupOk st.iter = false
      · simp [onSignal_fileFails w l st _ s h1 hl hf, onSignal_fileFails w l st _ s h2 hl hf,
          reloadHead, iterHead, actions, Effect.isOut]
      · cases hs : w.startPid st.iter with
        | none =>
          simp [onSignal_startFails w l st _ s h1 hl hf hs,
            onSignal_startFails w l st _ s h2 hl hf hs, reloadHead, iterHead, actions,
            Effect.isOut]
        | some pid =>
          simp [onSignal_restarts w l st _ s pid h1 hl hf hs,
            onSignal_restarts w l st _ s pid h2 hl hf hs, reloadHead, iterHead, actions,
            Effect.isOut]
  · intro pre post e hsplit he
    rcases shutdownAfterSpawn_split _ false pre post e (main_ordered w) hsplit he with h | h
    · exact absurd h (by simp)
    · exact h

/-- The witness of C9: a reborn process on a TCP socket that receives one
`SIGTERM`. -/
theorem reload_effect_sequence_witness :
    Effect.goServe (some (Listener.tcp sock8080)) readTimeout
      ∈ (main (rebornWorld [SIGTERM])).trace ∧
    ([Effect.newFile 3, Effect.fileListener true,
        Effect.goServe (some (Listener.tcp sock8080)) readTimeout,
        Effect.notify [SIGHUP, SIGTERM],
        Effect.withTimeout 0 shutdownTimeout,
        Effect.signalStop,
        Effect.listenerFile true,
        Effect.start (childCmd (rebornWorld [SIGTERM]) ⟨sock8080⟩) (some 4242),
        Effect.shutdown 0 shutdownTimeout false]
        <+: actions (main (rebornWorld [SIGTERM])).trace ∧
      (main (rebornWorld [SIGTERM])).trace.countP Effect.isShutdown = 1) :=
  ⟨by decide,
    (reload_effect_sequence (rebornWorld [SIGTERM])).1 sock8080 SIGTERM [] 4242
      (by decide) rfl (Or.inl rfl) rfl rfl⟩

/-! ## A spawn that fails -/

/-- A loop in which `cmd.Start` returned an error called no `Shutdown`,
returned, and did so right after the line that reports the error. -/
theorem signalLoop_startFailed (w : World) (l : Option Listener) (c : Cmd)
    (sigs : List Signal) :
    ∀ st : LoopState, Effect.start c none ∈ (signalLoop w l st sigs).trace →
      (signalLoop w l st sigs).trace.countP Effect.isShutdown = 0 ∧
      (signalLoop w l st sigs).outcome = Outcome.returned ∧
      [Effect.start c none, Effect.out "cmd.Start fail"] <:+ (signalLoop w l st sigs).trace := by
  induction sigs with
  | nil => intro st; simp [signalLoop]
  | cons sig rest ih =>
    intro st
    by_cases h : sig = SIGTERM ∨ sig = SIGHUP
    · cases hl : asTCP l with
      | none =>
        simp [signalLoop, onSignal_notTCP w l st sig h hl, reloadHead, iterHead]
      | some s =>
        by_cases hf : st.closed = true ∨ w.dupOk st.iter = false
        · simp [signalLoop, onSignal_fileFails w l st sig s h hl hf, reloadHead, iterHead]
        · cases hs : w.startPid st.iter with
          | none =>
            simp only [signalLoop, onSignal_startFails w l st sig s h hl hf hs]
            intro hm
            have hc : c = childCmd w ⟨s⟩ := by
              simpa [reloadHead, iterHead] using hm
            subst hc
            refine ⟨by simp [reloadHead, iterHead, Effect.isShutdown], trivial, ?_⟩
            exact ⟨reloadHead w st sig ++ [Effect.listenerFile true], by simp⟩
          | some pid =>
            have hc := (signalLoop_closed w l rest (drained w st) rfl).1
            rw [List.countP_eq_zero] at hc
            simp only [signalLoop, onSignal_restarts w l st sig s pid h hl hf hs]
            intro hm
            exfalso
            simp [reloadHead, iterHead] at hm
            exact absurd (by simp [Effect.isStart]) (hc _ hm)
    · have := ih { iter := st.iter + 1, now := st.now + w.recvWait st.iter, closed := st.closed }
      simp only [signalLoop, onSignal_other w l st sig h]
      intro hm
      have hm' : Effect.start c none ∈ (signalLoop w l
          { iter := st.iter + 1, now := st.now + w.recvWait st.iter, closed := st.closed }
          rest).trace := by
        simpa [iterHead] using hm
      obtain ⟨h1, h2, h3⟩ := this hm'
      refine ⟨?_, h2, ?_⟩
      · rw [List.countP_append, h1]
        simp [iterHead, Effect.isShutdown]
      · exact h3.trans (List.suffix_append _ _)

/-- C1, as the code has it: when `cmd.Start` returns an error the run calls no
`Shutdown`, `main` returns (the process exits, it does not go on serving), the
trace ends with the failed start and the line that reports it, `signal.Notify`
was called once, at boot, and is not called again, and no second start is
tried. -/
theorem spawn_failure_returns (w : World) (c : Cmd)
    (h : Effect.start c none ∈ (main w).trace) :
    (main w).trace.countP Effect.isShutdown = 0 ∧
    (main w).outcome = Outcome.returned ∧
    [Effect.start c none, Effect.out "cmd.Start fail"] <:+ (main w).trace ∧
    (main w).trace.countP Effect.isNotify = 1 ∧
    (main w).trace.countP Effect.isStart = 1 := by
  have hone : (main w).trace.countP Effect.isStart = 1 := by
    have h1 := main_start_le_one w
    have h2 : 0 < (main w).trace.countP Effect.isStart :=
      List.countP_pos_iff.mpr ⟨_, h, rfl⟩
    omega
  cases hg : flagParse w with
  | error code => simp [main_usage w code hg] at h
  | ok g =>
    cases g with
    | false => simp [main_firstBoot w hg] at h
    | true =>
      cases hl : fileListener w.fd3 with
      | error e => simp [main_rebornFails w e hg hl] at h
      | ok l =>
        have hm : Effect.start c none ∈ (signalLoop w (some l) (initState w) w.signals).trace := by
          simpa [main_reborn w l hg hl, bootTrace] using h
        obtain ⟨h1, h2, h3⟩ := signalLoop_startFailed w (some l) c w.signals (initState w) hm
        have hn := (signalLoop_noServe w (some l) w.signals (initState w)).2
        refine ⟨?_, ?_, ?_, ?_, hone⟩
        · rw [main_reborn w l hg hl]
          simp only [List.countP_append, h1]
          simp [bootTrace, Effect.isShutdown]
        · rw [main_reborn w l hg hl]
          exact h2
        · rw [main_reborn w l hg hl]
          exact h3.trans (List.suffix_append _ _)
        · rw [main_reborn w l hg hl]
          simp only [List.countP_append, hn]
          simp [bootTrace, Effect.isNotify]

/-- The witness of C1 as amended: `cmd.Start` fails on the first `SIGHUP`. -/
theorem spawn_failure_returns_witness :
    Effect.start (childCmd spawnFailWorld ⟨sock8080⟩) none ∈ (main spawnFailWorld).trace ∧
    (main spawnFailWorld).trace.countP Effect.isShutdown = 0 ∧
    (main spawnFailWorld).outcome = Outcome.returned ∧
    [Effect.start (childCmd spawnFailWorld ⟨sock8080⟩) none, Effect.out "cmd.Start fail"]
      <:+ (main spawnFailWorld).trace ∧
    (main spawnFailWorld).trace.countP Effect.isNotify = 1 ∧
    (main spawnFailWorld).trace.countP Effect.isStart = 1 :=
  ⟨by decide, spawn_failure_returns spawnFailWorld _ (by decide)⟩

/-- C1 as stated fails: `cmd.Start` fails on the first of two `SIGHUP`, and it
is not so that no `Shutdown` is called, the process stays and `signal.Notify`
is called again: `main` has returned, `signal.Notify` was called once, and the
second `SIGHUP` led to no second start. -/
theorem spawn_failure_keeps_serving_refuted :
    Effect.start (childCmd spawnFailWorld ⟨sock8080⟩) none ∈ (main spawnFailWorld).trace ∧
    spawnFailWorld.signals = [SIGHUP, SIGHUP] ∧
    ¬ ((main spawnFailWorld).trace.countP Effect.isShutdown = 0 ∧
        (main spawnFailWorld).outcome.processGone = false ∧
        1 < (main spawnFailWorld).trace.countP Effect.isNotify) ∧
    (main spawnFailWorld).outcome = Outcome.returned ∧
    (main spawnFailWorld).trace.countP Effect.isNotify = 1 ∧
    (main spawnFailWorld).trace.countP Effect.isStart = 1 := by
  decide

/-! ## A descriptor that cannot be extracted -/

/-- C8, as the code has it: when a generation that serves receives a reload
signal and the listener is no TCP listener or `File()` returns an error, the
iteration starts no child, calls no `Shutdown`, and returns: `main` returns
and the process exits.  First for one iteration from any state with the
listener open, then for the first signal of a run. -/
theorem extraction_failure_returns (w : World) :
    (∀ (l : Option Listener) (st : LoopState) (sig : Signal),
      (sig = SIGTERM ∨ sig = SIGHUP) → st.closed = false →
      (asTCP l = none ∨ w.dupOk st.iter = false) →
      (onSignal w l st sig).2 = none ∧
      (onSignal w l st sig).1.countP Effect.isStart = 0 ∧
      (onSignal w l st sig).1.countP Effect.isShutdown = 0) ∧
    (∀ (l : Listener) (sig : Signal) (rest : List Signal),
      Effect.goServe (some l) readTimeout ∈ (main w).trace →
      w.signals = sig :: rest → (sig = SIGTERM ∨ sig = SIGHUP) →
      (asTCP (some l) = none ∨ w.dupOk 0 = false) →
      (main w).trace.countP Effect.isStart = 0 ∧
      (main w).trace.countP Effect.isShutdown = 0 ∧
      (main w).outcome = Outcome.returned) := by
  have step : ∀ (l : Option Listener) (st : LoopState) (sig : Signal),
      (sig = SIGTERM ∨ sig = SIGHUP) →
      (asTCP l = none ∨ w.dupOk st.iter = false) →
      (onSignal w l st sig).2 = none ∧
      (onSignal w l st sig).1.countP Effect.isStart = 0 ∧
      (onSignal w l st sig).1.countP Effect.isShutdown = 0 := by
    intro l st sig h hx
    cases hl : asTCP l with
    | none =>
      simp [onSignal_notTCP w l st sig h hl, reloadHead, iterHead, Effect.isStart,
        Effect.isShutdown]
    | some s =>
      have hd : w.dupOk st.iter = false := by
        rcases hx with hx | hx
        · simp [hl] at hx
        · exact hx
      simp [onSignal_fileFails w l st sig s h hl (Or.inr hd), reloadHead, iterHead,
        Effect.isStart, Effect.isShutdown]
  refine ⟨fun l st sig h _ hx => step l st sig h hx, ?_⟩
  intro l sig rest hserve hsig h hx
  obtain ⟨hg, hl⟩ := serving_inv w _ _ hserve
  obtain ⟨h1, h2, h3⟩ := step (some l) (initState w) sig h (by simpa [initState] using hx)
  rw [main_reborn w l hg hl, hsig]
  cases ho : onSignal w (some l) (initState w) sig with
  | mk tr nx =>
    rw [ho] at h1 h2 h3
    simp only at h1 h2 h3
    subst h1
    simp only [signalLoop, ho, List.countP_append, h2, h3]
    simp [bootTrace, Effect.isStart, Effect.isShutdown]

/-- The witness of C8 as amended: `File()` fails on the first `SIGHUP`. -/
theorem extraction_failure_returns_witness :
    Effect.goServe (some (Listener.tcp sock8080)) readTimeout ∈ (main dupFailWorld).trace ∧
    dupFailWorld.dupOk 0 = false ∧
    (main dupFailWorld).trace.countP Effect.isStart = 0 ∧
    (main dupFailWorld).trace.countP Effect.isShutdown = 0 ∧
    (main dupFailWorld).outcome = Outcome.returned :=
  ⟨by decide, rfl,
    (extraction_failure_returns dupFailWorld).2 (Listener.tcp sock8080) SIGHUP [] (by decide)
      rfl (Or.inr rfl) (Or.inr rfl)⟩

/-- C8 as stated fails: with a TCP listener whose `File()` fails, and with a
listener that is no TCP listener, the generation serves, receives a reload
signal, and it is not so that it starts no child, calls no `Shutdown` and
stays: `main` has returned. -/
theorem extraction_failure_keeps_serving_refuted :
    Effect.goServe (some (Listener.tcp sock8080)) readTimeout ∈ (main dupFailWorld).trace ∧
    Effect.listenerFile false ∈ (main dupFailWorld).trace ∧
    ¬ ((main dupFailWorld).trace.countP Effect.isStart = 0 ∧
        (main dupFailWorld).trace.countP Effect.isShutdown = 0 ∧
        (main dupFailWorld).outcome.processGone = false) ∧
    (main dupFailWorld).outcome = Outcome.returned ∧
    Effect.goServe (some (Listener.unix ⟨9, SockKind.unix, "/run/gin.sock"⟩)) readTimeout
      ∈ (main unixWorld).trace ∧
    Effect.out "listener is not tcp listener" ∈ (main unixWorld).trace ∧
    ¬ ((main unixWorld).trace.countP Effect.isStart = 0 ∧
        (main unixWorld).trace.countP Effect.isShutdown = 0 ∧
        (main unixWorld).outcome.processGone = false) ∧
    (main unixWorld).outcome = Outcome.returned := by
  decide

/-! ## The time left to drain -/

/-- Every `Shutdown` of the loop gets the context created in its own
iteration, and is called when `File()` and `cmd.Start` of that iteration have
taken their time. -/
theorem signalLoop_shutdownWindow (w : World) (l : Option Listener) (c d : Nat) (t : Bool)
    (sigs : List Signal) :
    ∀ st : LoopState, Effect.shutdown c d t ∈ (signalLoop w l st sigs).trace →
      ∃ i t0, Effect.withTimeout t0 shutdownTimeout ∈ (signalLoop w l st sigs).trace ∧
        d = t0 + shutdownTimeout ∧ c = t0 + w.fileTook i + w.startTook i ∧
        t = decide (d - c < w.drainNeeds) := by
  induction sigs with
  | nil => intro st; simp [signalLoop]
  | cons sig rest ih =>
    intro st
    by_cases h : sig = SIGTERM ∨ sig = SIGHUP
    · cases hl : asTCP l with
      | none =>
        simp [signalLoop, onSignal_notTCP w l st sig h hl, reloadHead, iterHead]
      | some s =>
        by_cases hf : st.closed = true ∨ w.dupOk st.iter = false
        · simp [signalLoop, onSignal_fileFails w l st sig s h hl hf, reloadHead, iterHead]
        · cases hs : w.startPid st.iter with
          | none =>
            simp [signalLoop, onSignal_startFails w l st sig s h hl hf hs, reloadHead,
              iterHead]
          | some pid =>
            have hc := (signalLoop_closed w l rest (drained w st) rfl).2
            rw [List.countP_eq_zero] at hc
            simp only [signalLoop, onSignal_restarts w l st sig s pid h hl hf hs]
            intro hm
            have hm' : c = spawnedAt w st ∧ d = deadlineOf w st ∧
                t = decide (deadlineOf w st - spawnedAt w st < w.drainNeeds) := by
              simp [reloadHead, iterHead] at hm
              rcases hm with hm | hm
              · exact hm
              · exact absurd (by simp [Effect.isShutdown]) (hc _ hm)
            obtain ⟨h1, h2, h3⟩ := hm'
            refine ⟨st.iter, st.now + w.recvWait st.iter, ?_, ?_, ?_, ?_⟩
            · simp [reloadHead, iterHead]
            · rw [h2]; rfl
            · rw [h1]; rfl
            · rw [h3, h1, h2]
    · have := ih { iter := st.iter + 1, now := st.now + w.recvWait st.iter, closed := st.closed }
      simp only [signalLoop, onSignal_other w l st sig h]
      intro hm
      have hm' : Effect.shutdown c d t ∈ (signalLoop w l
          { iter := st.iter + 1, now := st.now + w.recvWait st.iter, closed := st.closed }
          rest).trace := by
        simpa [iterHead] using hm
      obtain ⟨i, t0, h1, h2⟩ := this hm'
      exact ⟨i, t0, List.mem_append_right _ h1, h2⟩

/-- C10, as the code has it: the context of every `Shutdown` was created with
the timeout of 20 s at the moment the signal was received, before the
descriptor is duplicated and the child started; `Shutdown` is called after
both, so the time from the call to the deadline is 20 s less the time `File()`
and `cmd.Start` took (nothing when they took longer), and `Shutdown` reports a
timeout when the requests in flight need more than that.  The timeout of 20 s
is longer than the read timeout of 6 s. -/
theorem drain_window (w : World) (c d : Nat) (t : Bool)
    (h : Effect.shutdown c d t ∈ (main w).trace) :
    ∃ i t0, Effect.withTimeout t0 shutdownTimeout ∈ (main w).trace ∧
      d = t0 + shutdownTimeout ∧ c = t0 + w.fileTook i + w.startTook i ∧
      d - c = shutdownTimeout - (w.fileTook i + w.startTook i) ∧
      t = decide (d - c < w.drainNeeds) ∧
      shutdownTimeout = 20 * second ∧ readTimeout = 6 * second ∧
      readTimeout < shutdownTimeout := by
  cases hg : flagParse w with
  | error code => simp [main_usage w code hg] at h
  | ok g =>
    cases g with
    | false => simp [main_firstBoot w hg] at h
    | true =>
      cases hl : fileListener w.fd3 with
      | error e => simp [main_rebornFails w e hg hl] at h
      | ok l =>
        have hm : Effect.shutdown c d t
            ∈ (signalLoop w (some l) (initState w) w.signals).trace := by
          simpa [main_reborn w l hg hl, bootTrace] using h
        obtain ⟨i, t0, h1, h2, h3, h4⟩ :=
          signalLoop_shutdownWindow w (some l) c d t w.signals (initState w) hm
        refine ⟨i, t0, ?_, h2, h3, ?_, h4, rfl, rfl, by decide⟩
        · rw [main_reborn w l hg hl]
          exact List.mem_append_right _ h1
        · rw [h2, h3]
          omega

/-- The witness of C10 as amended: the duplication takes 1 s, the start 2 s. -/
theorem drain_window_witness :
    Effect.shutdown (8 * second) (25 * second) false
      ∈ (main (timedWorld second (2 * second))).trace ∧
    ∃ i t0, Effect.withTimeout t0 shutdownTimeout ∈ (main (timedWorld second (2 * second))).trace ∧
      25 * second = t0 + shutdownTimeout ∧
      8 * second = t0 + (timedWorld second (2 * second)).fileTook i
        + (timedWorld second (2 * second)).startTook i ∧
      25 * second - 8 * second = shutdownTimeout
        - ((timedWorld second (2 * second)).fileTook i
          + (timedWorld second (2 * second)).startTook i) ∧
      false = decide (25 * second - 8 * second < (timedWorld second (2 * second)).drainNeeds) ∧
      shutdownTimeout = 20 * second ∧ readTimeout = 6 * second ∧
      readTimeout < shutdownTimeout :=
  ⟨by decide, drain_window (timedWorld second (2 * second)) _ _ _ (by decide)⟩

/-- C10 as stated fails: when `cmd.Start` takes 1 s the one `Shutdown` of the
run has 19 s to its deadline, not 20 s; when it takes 15 s the `Shutdown` has
5 s, which is less than the read timeout of 6 s. -/
theorem drain_window_fixed_refuted :
    drainWindows (main (timedWorld 0 second)).trace = [19 * second] ∧
    ¬ (∀ x ∈ drainWindows (main (timedWorld 0 second)).trace, x = shutdownTimeout) ∧
    drainWindows (main (timedWorld 0 (15 * second))).trace = [5 * second] ∧
    ¬ (∀ x ∈ drainWindows (main (timedWorld 0 (15 * second))).trace, readTimeout < x) := by
  decide

/-! ## The hand-off of the listening socket -/

theorem parseFlags_g : parseFlags false ["-g"] = Except.ok true := by
  rfl

/-- C6: when `cmd.Start` has created a child, the parent serves a TCP listener
on some socket `s`; the command is the program's own `os.Args[0]` with the one
argument `-g`; its only extra file is the duplicate of the parent's listening
descriptor, which `os/exec` puts at descriptor 3 of the child and nowhere
else; the child parses the flag as set, rebuilds its listener from descriptor
3 and gets a TCP listener on the same socket `s` (so on the same local
address) and serves on it.  In every world the acquisition with the flag reads
descriptor 3 and no other, and the acquisition without the flag reads no
descriptor. -/
theorem handoff_round_trip (w env : World) (c : Cmd) (pid : Nat)
    (h : Effect.start c (some pid) ∈ (main w).trace) :
    ∃ s : Socket,
      Effect.goServe (some (Listener.tcp s)) readTimeout ∈ (main w).trace ∧
      c.name = w.osArgs.headD "" ∧ c.args = [w.osArgs.headD "", "-g"] ∧
      c.extraFiles = [⟨s⟩] ∧ c.childFd 3 = some s ∧ (∀ n, n ≠ 3 → c.childFd n = none) ∧
      flagParse (childWorld env c) = Except.ok true ∧
      (acquire (childWorld env c) true).listener = some (Listener.tcp s) ∧
      (acquire (childWorld env c) true).err = none ∧
      ((acquire (childWorld env c) true).listener.map Listener.socket).map Socket.laddr
        = some s.laddr ∧
      Effect.goServe (some (Listener.tcp s)) readTimeout ∈ (main (childWorld env c)).trace ∧
      (∀ (v : World) (n : Nat), Effect.newFile n ∈ (acquire v true).trace ↔ n = 3) ∧
      (∀ (v : World) (n : Nat), Effect.newFile n ∉ (acquire v false).trace) := by
  cases hg : flagParse w with
  | error code => simp [main_usage w code hg] at h
  | ok g =>
    cases g with
    | false => simp [main_firstBoot w hg] at h
    | true =>
      cases hl : fileListener w.fd3 with
      | error e => simp [main_rebornFails w e hg hl] at h
      | ok l =>
        have hm : Effect.start c (some pid)
            ∈ (signalLoop w (some l) (initState w) w.signals).trace := by
          simpa [main_reborn w l hg hl, bootTrace] using h
        obtain ⟨s, hs, hc⟩ := signalLoop_startCmd w (some l) c _ w.signals (initState w) hm
        have hls : l = Listener.tcp s := by
          cases l with
          | tcp s' => simp [asTCP] at hs; rw [hs]
          | unix s' => simp [asTCP] at hs
        subst hls
        subst hc
        obtain ⟨_, hk⟩ := fileListener_tcp _ _ hl
        have hfd : (childCmd w ⟨s⟩).childFd 3 = some s := by
          simp [childCmd, Cmd.childFd]
        have hflag : flagParse (childWorld env (childCmd w ⟨s⟩)) = Except.ok true := by
          simp [flagParse, childWorld, childCmd, parseFlags_g]
        have hfl : fileListener (childWorld env (childCmd w ⟨s⟩)).fd3
            = Except.ok (Listener.tcp s) := by
          simp [childWorld, hfd, fileListener, hk]
        refine ⟨s, ?_, rfl, rfl, rfl, hfd, ?_, hflag, ?_, ?_, ?_, ?_, ?_, ?_⟩
        · simp [main_reborn w _ hg hl, bootTrace]
        · intro n hn
          simp only [childCmd, Cmd.childFd]
          split
          · rfl
          · have : n - 3 ≠ 0 := by omega
            obtain ⟨k, hk'⟩ := Nat.exists_eq_succ_of_ne_zero this
            simp [hk']
        · simp [acquire, hfl, listenerOf]
        · simp [acquire, hfl, errOf]
        · simp [acquire, hfl, listenerOf, Listener.socket]
        · simp [main_reborn _ _ hflag hfl, bootTrace]
        · intro v n
          simp [acquire]
        · intro v n
          simp [acquire_firstBoot]

/-- The witness of C6: the child of a reborn process that received `SIGHUP`,
in a world that is otherwise the one of a first boot. -/
theorem handoff_round_trip_witness :
    Effect.start (childCmd (rebornWorld [SIGHUP]) ⟨sock8080⟩) (some 4242)
      ∈ (main (rebornWorld [SIGHUP])).trace ∧
    (acquire (childWorld firstBootWorld (childCmd (rebornWorld [SIGHUP]) ⟨sock8080⟩))
      true).listener = some (Listener.tcp sock8080) ∧
    ∃ s : Socket,
      Effect.goServe (some (Listener.tcp s)) readTimeout ∈ (main (rebornWorld [SIGHUP])).trace ∧
      (childCmd (rebornWorld [SIGHUP]) ⟨sock8080⟩).name = (rebornWorld [SIGHUP]).osArgs.headD "" ∧
      (childCmd (rebornWorld [SIGHUP]) ⟨sock8080⟩).args
        = [(rebornWorld [SIGHUP]).osArgs.headD "", "-g"] ∧
      (childCmd (rebornWorld [SIGHUP]) ⟨sock8080⟩).extraFiles = [⟨s⟩] ∧
      (childCmd (rebornWorld [SIGHUP]) ⟨sock8080⟩).childFd 3 = some s ∧
      (∀ n, n ≠ 3 → (childCmd (rebornWorld [SIGHUP]) ⟨sock8080⟩).childFd n = none) ∧
      flagParse (childWorld firstBootWorld (childCmd (rebornWorld [SIGHUP]) ⟨sock8080⟩))
        = Except.ok true ∧
      (acquire (childWorld firstBootWorld (childCmd (rebornWorld [SIGHUP]) ⟨sock8080⟩))
        true).listener = some (Listener.tcp s) ∧
      (acquire (childWorld firstBootWorld (childCmd (rebornWorld [SIGHUP]) ⟨sock8080⟩))
        true).err = none ∧
      (((acquire (childWorld firstBootWorld (childCmd (rebornWorld [SIGHUP]) ⟨sock8080⟩))
        true).listener.map Listener.socket).map Socket.laddr) = some s.laddr ∧
      Effect.goServe (some (Listener.tcp s)) readTimeout
        ∈ (main (childWorld firstBootWorld
            (childCmd (rebornWorld [SIGHUP]) ⟨sock8080⟩))).trace ∧
      (∀ (v : World) (n : Nat), Effect.newFile n ∈ (acquire v true).trace ↔ n = 3) ∧
      (∀ (v : World) (n : Nat), Effect.newFile n ∉ (acquire v false).trace) :=
  ⟨by decide, by decide,
    handoff_round_trip (rebornWorld [SIGHUP]) firstBootWorld _ 4242 (by decide)⟩

/-! ## The requests in flight -/

/-- Every `Shutdown` of a run reports the context's error exactly when the
requests in flight need more than the time left to the deadline. -/
theorem main_shutdownFlag (w : World) (c d : Nat) (t : Bool)
    (h : Effect.shutdown c d t ∈ (main w).trace) : t = decide (d - c < w.drainNeeds) := by
  cases hg : flagParse w with
  | error code => simp [main_usage w code hg] at h
  | ok g =>
    cases g with
    | false => simp [main_firstBoot w hg] at h
    | true =>
      cases hl : fileListener w.fd3 with
      | error e => simp [main_rebornFails w e hg hl] at h
      | ok l =>
        have hm : Effect.shutdown c d t
            ∈ (signalLoop w (some l) (initState w) w.signals).trace := by
          simpa [main_reborn w l hg hl, bootTrace] using h
        obtain ⟨_, _, _, _, _, h4⟩ :=
          signalLoop_shutdownWindow w (some l) c d t w.signals (initState w) hm
        exact h4

/-- C3, as the code has it: a `Shutdown` returns without the context's error
exactly when the requests in flight need no more than the time left to the
deadline.  When a generation that serves a TCP listener receives a reload
signal, `File()` and `cmd.Start` succeed, and the requests in flight need less
than the 20 s of the timeout counted from the receipt of the signal (`r`, of
which `drainNeeds` is what is left when `Shutdown` is called), then `Shutdown`
is called once, returns without the context's error, and returns at the
moment the requests are done: `main` cannot return before their responses are
written.  A request handled by `ServeHTTP` that is in flight at some moment
needs less than 20 s from that moment. -/
theorem inflight_answered (w : World) :
    (∀ (c d : Nat) (t : Bool), Effect.shutdown c d t ∈ (main w).trace →
      (t = false ↔ w.drainNeeds ≤ d - c)) ∧
    (∀ (s : Socket) (sig : Signal) (rest : List Signal) (pid r : Nat),
      Effect.goServe (some (Listener.tcp s)) readTimeout ∈ (main w).trace →
      w.signals = sig :: rest → (sig = SIGTERM ∨ sig = SIGHUP) →
      w.dupOk 0 = true → w.startPid 0 = some pid →
      r < shutdownTimeout → w.drainNeeds = r - (w.fileTook 0 + w.startTook 0) →
      Effect.shutdown (w.bootTime + w.recvWait 0 + w.fileTook 0 + w.startTook 0)
        (w.bootTime + w.recvWait 0 + shutdownTimeout) false ∈ (main w).trace ∧
      (main w).trace.countP Effect.isShutdown = 1 ∧
      (main w).trace.any Effect.isDrained = true ∧
      (onSignal w (some (Listener.tcp s)) (initState w) sig).2 =
        some { iter := 1,
               now := w.bootTime + w.recvWait 0 + w.fileTook 0 + w.startTook 0 + w.drainNeeds,
               closed := true }) ∧
    (∀ startedAt now : Nat, startedAt ≤ now → ServeHTTP startedAt - now < shutdownTimeout) := by
  refine ⟨?_, ?_, ?_⟩
  · intro c d t h
    rw [main_shutdownFlag w c d t h]
    simp
  · intro s sig rest pid r hserve hsig h hdup hpid hr hd
    obtain ⟨hg, hl⟩ := serving_inv w _ _ hserve
    have hf : ¬ ((initState w).closed = true ∨ w.dupOk (initState w).iter = false) := by
      simp [initState, hdup]
    have e1 := onSignal_restarts w (some (Listener.tcp s)) (initState w) sig s pid h rfl hf
      (by simpa [initState] using hpid)
    have hc := (signalLoop_closed w (some (Listener.tcp s)) rest (drained w (initState w)) rfl).2
    have hwin : ¬ (deadlineOf w (initState w) - spawnedAt w (initState w) < w.drainNeeds) := by
      simp only [deadlineOf, spawnedAt, initState]
      omega
    have hmin : min w.drainNeeds (deadlineOf w (initState w) - spawnedAt w (initState w))
        = w.drainNeeds := by
      apply Nat.min_eq_left
      omega
    have hflag : decide (deadlineOf w (initState w) - spawnedAt w (initState w) < w.drainNeeds)
        = false := by
      simp only [decide_eq_false_iff_not]
      exact hwin
    rw [hflag] at e1
    refine ⟨?_, ?_, ?_, ?_⟩
    · simp only [main_reborn w _ hg hl, hsig, signalLoop, e1]
      simp [bootTrace, reloadHead, iterHead, spawnedAt, deadlineOf, initState]
    · simp [main_reborn w _ hg hl, hsig, signalLoop, e1, bootTrace, reloadHead, iterHead,
        Effect.isShutdown, hc]
    · simp only [main_reborn w _ hg hl, hsig, signalLoop, e1]
      simp [bootTrace, reloadHead, iterHead, Effect.isDrained]
    · rw [e1]
      simp only [drained, hmin]
      simp [spawnedAt, initState]
  · intro startedAt now hle
    simp only [ServeHTTP, handlerSleep, shutdownTimeout, second]
    omega

/-- The witness of C3 as amended: a request needs 10 s when `SIGHUP` is
received, the duplication takes 1 s and the start 2 s. -/
theorem inflight_answered_witness :
    Effect.goServe (some (Listener.tcp sock8080)) readTimeout ∈ (main inflightWorld).trace ∧
    handlerSleep < shutdownTimeout ∧
    inflightWorld.drainNeeds
      = handlerSleep - (inflightWorld.fileTook 0 + inflightWorld.startTook 0) ∧
    (Effect.shutdown
        (inflightWorld.bootTime + inflightWorld.recvWait 0 + inflightWorld.fileTook 0
          + inflightWorld.startTook 0)
        (inflightWorld.bootTime + inflightWorld.recvWait 0 + shutdownTimeout) false
        ∈ (main inflightWorld).trace ∧
      (main inflightWorld).trace.countP Effect.isShutdown = 1 ∧
      (main inflightWorld).trace.any Effect.isDrained = true ∧
      (onSignal inflightWorld (some (Listener.tcp sock8080)) (initState inflightWorld) SIGHUP).2 =
        some { iter := 1,
               now := inflightWorld.bootTime + inflightWorld.recvWait 0
                 + inflightWorld.fileTook 0 + inflightWorld.startTook 0
                 + inflightWorld.drainNeeds,
               closed := true }) :=
  ⟨by decide, by decide, by decide,
    (inflight_answered inflightWorld).2.1 sock8080 SIGHUP [] 4242 handlerSleep (by decide) rfl
      (Or.inr rfl) rfl rfl (by decide) (by decide)⟩

/-- C3 as stated fails.  A reload signal is received while requests are in
flight that need the 10 s of the handler, less than the 20 s of the timeout,
and `cmd.Start` returns an error: `main` returns without any `Shutdown`, the
process is gone and nothing has waited for the requests.  And when `cmd.Start`
takes 15 s, the requests in flight at the call of `Shutdown` need the 10 s of
the handler and a second signal is buffered, `Shutdown` is called with 5 s
left, returns the context's error, and `main` returns on the second signal:
again it is not so that the process lives on or a `Shutdown` has returned with
the requests done. -/
theorem inflight_answered_refuted :
    Effect.goServe (some (Listener.tcp sock8080)) readTimeout
      ∈ (main inflightFailWorld).trace ∧
    inflightFailWorld.drainNeeds = handlerSleep ∧ handlerSleep < shutdownTimeout ∧
    ¬ ((main inflightFailWorld).outcome = Outcome.waiting ∨
        (main inflightFailWorld).trace.any Effect.isDrained = true) ∧
    (main inflightFailWorld).outcome = Outcome.returned ∧
    (main inflightFailWorld).trace.countP Effect.isShutdown = 0 ∧
    Effect.goServe (some (Listener.tcp sock8080)) readTimeout ∈ (main slowStartWorld).trace ∧
    slowStartWorld.drainNeeds = handlerSleep ∧
    Effect.shutdown (15 * second) (20 * second) true ∈ (main slowStartWorld).trace ∧
    ¬ ((main slowStartWorld).outcome = Outcome.waiting ∨
        (main slowStartWorld).trace.any Effect.isDrained = true) ∧
    (main slowStartWorld).outcome = Outcome.returned := by
  decide

end GinGraceful
